import Mathlib

/-!
Verification of the generation-orchestration layer of the y-functions
repository (Firebase HTTP endpoints `yinYang` and `caption`).

The TypeScript sources are shallowly embedded below.  JavaScript runtime
values that the code manipulates after `JSON.parse` are modelled by the
inductive type `JsVal`; `JSON.parse` itself is treated as the runtime
boundary, so functions that consume a freshly parsed string take the parse
result as an `Option JsVal` (`none` = the parse threw).  Arrays carry an
extra property list because the code assigns the non-index property
`bubbles` to whatever `JSON.parse` returned, which on a JS array is stored
next to the elements.  The compiled code runs in strict mode, so assigning
a property to a primitive throws a `TypeError`; property access on `null`
or `undefined` throws as well.  Both are modelled by `Except Unit`.
-/

/-- A JavaScript runtime value (numbers as integers: no claim depends on
fractional values, and `JSON.parse` never yields `NaN`). -/
inductive JsVal : Type where
  | undef : JsVal
  | null : JsVal
  | bool : Bool → JsVal
  | num : Int → JsVal
  | str : String → JsVal
  | arr : List JsVal → List (String × JsVal) → JsVal
  | obj : List (String × JsVal) → JsVal

namespace JsVal

/-- JavaScript truthiness (`undefined`, `null`, `false`, `0`, `""` are
falsy; everything else, objects and arrays included, is truthy). -/
def truthy : JsVal → Bool
  | undef => false
  | null => false
  | bool b => b
  | num n => n != 0
  | str s => s != ""
  | arr _ _ => true
  | obj _ => true

/-- First binding of a key in a property list. -/
def lookupProp (props : List (String × JsVal)) (k : String) : Option JsVal :=
  match props with
  | [] => none
  | (k', v) :: rest => if k' = k then some v else lookupProp rest k

/-- Property read `v[k]`: throws on `null`/`undefined`, yields `undefined`
for a missing key or for a primitive receiver. -/
def getProp : JsVal → String → Except Unit JsVal
  | undef, _ => .error ()
  | null, _ => .error ()
  | bool _, _ => .ok undef
  | num _, _ => .ok undef
  | str _, _ => .ok undef
  | arr _ props, k => .ok ((lookupProp props k).getD undef)
  | obj props, k => .ok ((lookupProp props k).getD undef)

/-- Replace a key's binding so that a later read finds the new value. -/
def setBinding (props : List (String × JsVal)) (k : String) (v : JsVal) :
    List (String × JsVal) :=
  (k, v) :: props.filter (fun p => p.1 ≠ k)

/-- Property write `v[k] = w`: in strict mode this throws on `null`,
`undefined` and on primitives; objects and arrays accept the write. -/
def setProp : JsVal → String → JsVal → Except Unit JsVal
  | undef, _, _ => .error ()
  | null, _, _ => .error ()
  | bool _, _, _ => .error ()
  | num _, _, _ => .error ()
  | str _, _, _ => .error ()
  | arr elems props, k, v => .ok (arr elems (setBinding props k v))
  | obj props, k, v => .ok (obj (setBinding props k v))

/-- `Array.isArray(v) && v.length === 0`. -/
def isEmptyArray : JsVal → Bool
  | arr [] _ => true
  | _ => false

end JsVal

open JsVal

/-- `yinYang.ts`: `const FAILURE_RESPONSE = "... ummmmm"`. -/
def FAILURE_RESPONSE : String := "... ummmmm"

/-- `yinYang.ts` `invokeLLM`: sentinel bubble substituted when the raw
model output fails to parse as JSON. -/
def PARSE_FAILURE_SENTINEL : String :=
  "I can see your image, but I'm having trouble processing it right now. Can you tell me what you'd like to know about it?"

/-- The `catch`-branch substitute object of `invokeLLM`. -/
def parseFailureJson : JsVal :=
  .obj [("bubbles", .arr [.str PARSE_FAILURE_SENTINEL] [])]

/-- `yinYang.ts` `invokeLLM`, lines 370–391: the `try/catch` that turns the
raw model output into `responseJson`.  Input is the outcome of
`JSON.parse(responseText)` (`none` = the parse threw).  Inside the `try`
the code reads `responseJson.bubbles`, assigns `[]` when that is falsy,
and replaces an empty `bubbles` array by `[FAILURE_RESPONSE]`; any throw
(parse error, property access on `null`, strict-mode write to a
primitive) lands in the `catch`, which substitutes the sentinel object. -/
def invokeLLMResponseJson (parsed : Option JsVal) : JsVal :=
  match parsed with
  | none => parseFailureJson
  | some j =>
    let attempt : Except Unit JsVal := do
      let b ← getProp j "bubbles"
      let j1 ← if truthy b then pure j else setProp j "bubbles" (.arr [] [])
      let b1 ← getProp j1 "bubbles"
      if isEmptyArray b1 then
        setProp j1 "bubbles" (.arr [.str FAILURE_RESPONSE] [])
      else
        pure j1
    match attempt with
    | .ok j' => j'
    | .error _ => parseFailureJson

/-- `yinYang.ts` `yinYang` handler, lines 151–157: the final response body
`bubbles` field, `Array.isArray(b) ? b : b ? [b] : []` applied to
`responseJson.bubbles` (a read that cannot throw at this point is still
modelled defensively with a `getD`). -/
def yinYangResponseBubbles (responseJson : JsVal) : List JsVal :=
  let b := ((getProp responseJson "bubbles").toOption).getD .undef
  match b with
  | .arr elems _ => elems
  | v => if truthy v then [v] else []

/-- Case analysis shared with the array case: whatever value sits under
the `bubbles` key of an object-shaped parse result, the repaired object
read back through the endpoint wrapper yields at least one bubble. -/
theorem bubbles_nonempty_obj (props : List (String × JsVal)) :
    1 ≤ (yinYangResponseBubbles (invokeLLMResponseJson (some (.obj props)))).length := by
  match h : lookupProp props "bubbles" with
  | none =>
    simp [invokeLLMResponseJson, h, truthy, setProp, setBinding, getProp,
      lookupProp, isEmptyArray, yinYangResponseBubbles, bind, Except.bind,
      pure, Except.pure, Except.toOption, Option.getD]
  | some v =>
    by_cases ht : truthy v
    · match v with
      | .arr [] ps =>
        simp [invokeLLMResponseJson, h, ht, truthy, setProp, setBinding,
          getProp, lookupProp, isEmptyArray, yinYangResponseBubbles, bind,
          Except.bind, pure, Except.pure, Except.toOption, Option.getD]
      | .arr (e :: es) ps =>
        simp [invokeLLMResponseJson, h, ht, truthy, setProp, setBinding,
          getProp, lookupProp, isEmptyArray, yinYangResponseBubbles, bind,
          Except.bind, pure, Except.pure, Except.toOption, Option.getD]
      | .bool b =>
        simp only [truthy] at ht
        simp [invokeLLMResponseJson, h, ht, truthy, setProp, setBinding,
          getProp, lookupProp, isEmptyArray, yinYangResponseBubbles, bind,
          Except.bind, pure, Except.pure, Except.toOption, Option.getD]
      | .num n =>
        simp only [truthy] at ht
        simp [invokeLLMResponseJson, h, ht, truthy, setProp, setBinding,
          getProp, lookupProp, isEmptyArray, yinYangResponseBubbles, bind,
          Except.bind, pure, Except.pure, Except.toOption, Option.getD]
      | .str s =>
        simp only [truthy] at ht
        simp [invokeLLMResponseJson, h, ht, truthy, setProp, setBinding,
          getProp, lookupProp, isEmptyArray, yinYangResponseBubbles, bind,
          Except.bind, pure, Except.pure, Except.toOption, Option.getD]
      | .obj ps =>
        simp [invokeLLMResponseJson, h, ht, truthy, setProp, setBinding,
          getProp, lookupProp, isEmptyArray, yinYangResponseBubbles, bind,
          Except.bind, pure, Except.pure, Except.toOption, Option.getD]
      | .undef => simp [truthy] at ht
      | .null => simp [truthy] at ht
    · simp only [Bool.not_eq_true] at ht
      simp [invokeLLMResponseJson, h, ht, setProp, setBinding, getProp,
        lookupProp, isEmptyArray, yinYangResponseBubbles, bind, Except.bind,
        pure, Except.pure, Except.toOption, Option.getD]

/-- Same analysis for an array-shaped parse result (the `bubbles` property
lives in the array's extra property slots). -/
theorem bubbles_nonempty_arr (elems : List JsVal) (props : List (String × JsVal)) :
    1 ≤ (yinYangResponseBubbles (invokeLLMResponseJson (some (.arr elems props)))).length := by
  match h : lookupProp props "bubbles" with
  | none =>
    simp [invokeLLMResponseJson, h, truthy, setProp, setBinding, getProp,
      lookupProp, isEmptyArray, yinYangResponseBubbles, bind, Except.bind,
      pure, Except.pure, Except.toOption, Option.getD]
  | some v =>
    by_cases ht : truthy v
    · match v with
      | .arr [] ps =>
        simp [invokeLLMResponseJson, h, ht, truthy, setProp, setBinding,
          getProp, lookupProp, isEmptyArray, yinYangResponseBubbles, bind,
          Except.bind, pure, Except.pure, Except.toOption, Option.getD]
      | .arr (e :: es) ps =>
        simp [invokeLLMResponseJson, h, ht, truthy, setProp, setBinding,
          getProp, lookupProp, isEmptyArray, yinYangResponseBubbles, bind,
          Except.bind, pure, Except.pure, Except.toOption, Option.getD]
      | .bool b =>
        simp only [truthy] at ht
        simp [invokeLLMResponseJson, h, ht, truthy, setProp, setBinding,
          getProp, lookupProp, isEmptyArray, yinYangResponseBubbles, bind,
          Except.bind, pure, Except.pure, Except.toOption, Option.getD]
      | .num n =>
        simp only [truthy] at ht
        simp [invokeLLMResponseJson, h, ht, truthy, setProp, setBinding,
          getProp, lookupProp, isEmptyArray, yinYangResponseBubbles, bind,
          Except.bind, pure, Except.pure, Except.toOption, Option.getD]
      | .str s =>
        simp only [truthy] at ht
        simp [invokeLLMResponseJson, h, ht, truthy, setProp, setBinding,
          getProp, lookupProp, isEmptyArray, yinYangResponseBubbles, bind,
          Except.bind, pure, Except.pure, Except.toOption, Option.getD]
      | .obj ps =>
        simp [invokeLLMResponseJson, h, ht, truthy, setProp, setBinding,
          getProp, lookupProp, isEmptyArray, yinYangResponseBubbles, bind,
          Except.bind, pure, Except.pure, Except.toOption, Option.getD]
      | .undef => simp [truthy] at ht
      | .null => simp [truthy] at ht
    · simp only [Bool.not_eq_true] at ht
      simp [invokeLLMResponseJson, h, ht, setProp, setBinding, getProp,
        lookupProp, isEmptyArray, yinYangResponseBubbles, bind, Except.bind,
        pure, Except.pure, Except.toOption, Option.getD]

/-- C1: for every raw model output — every `JSON.parse` outcome, parse
failures included — the interpreted result substitutes a fixed sentinel
reply line when the output is unusable, so the primary endpoint's final
`bubbles` array always has length at least 1; in particular a parse
failure yields the fixed parse sentinel, a parsed object with no
`bubbles` field and a parsed `{bubbles: []}` both yield the fixed
`FAILURE_RESPONSE` bubble. -/
theorem c1_bubbles_never_empty :
    (∀ parsed : Option JsVal,
      1 ≤ (yinYangResponseBubbles (invokeLLMResponseJson parsed)).length)
    ∧ yinYangResponseBubbles (invokeLLMResponseJson none)
        = [.str PARSE_FAILURE_SENTINEL]
    ∧ yinYangResponseBubbles (invokeLLMResponseJson (some (.obj [])))
        = [.str FAILURE_RESPONSE]
    ∧ yinYangResponseBubbles
        (invokeLLMResponseJson (some (.obj [("bubbles", .arr [] [])])))
        = [.str FAILURE_RESPONSE] := by
  refine ⟨fun parsed => ?_, rfl, rfl, rfl⟩
  match parsed with
  | none => rfl
  | some .undef => rfl
  | some .null => rfl
  | some (.bool b) => rfl
  | some (.num n) =>
    show 1 ≤ (yinYangResponseBubbles (invokeLLMResponseJson (some (.num n)))).length
    rfl
  | some (.str s) =>
    show 1 ≤ (yinYangResponseBubbles (invokeLLMResponseJson (some (.str s)))).length
    rfl
  | some (.arr elems props) => exact bubbles_nonempty_arr elems props
  | some (.obj props) => exact bubbles_nonempty_obj props

/-!
## History normalization (`yinYang.ts` `processFormDataAndImages`, lines 170–218)

The `history` multipart field is `JSON.parse`d and validated; each item of
the resulting array must be a non-null object carrying `role` and `parts`
keys.  Validated items are reduced to the two fields every later step
reads.
-/

/-- The `role` and `parts` values of one validated history item (the code
spreads the whole object, but no later step reads any other key). -/
structure HistItem where
  role : JsVal
  parts : JsVal

/-- `typeof item === "object" && item !== null && "role" in item &&
"parts" in item` — JS arrays also have `typeof` `"object"`. -/
def isContentObject : JsVal → Bool
  | .obj props => (lookupProp props "role").isSome && (lookupProp props "parts").isSome
  | .arr _ props => (lookupProp props "role").isSome && (lookupProp props "parts").isSome
  | _ => false

/-- Extract the two relevant fields from an item that passed the check. -/
def toHistItem : JsVal → HistItem
  | .obj props => ⟨(lookupProp props "role").getD .undef, (lookupProp props "parts").getD .undef⟩
  | .arr _ props => ⟨(lookupProp props "role").getD .undef, (lookupProp props "parts").getD .undef⟩
  | _ => ⟨.undef, .undef⟩

/-- Strict equality against the literal `"assistant"`. -/
def roleIsAssistant : JsVal → Bool
  | .str s => s = "assistant"
  | _ => false

/-- Strict equality against the literal `"model"`. -/
def roleIsModel : JsVal → Bool
  | .str s => s = "model"
  | _ => false

/-- Strict equality against the literal `"user"`. -/
def roleIsUser : JsVal → Bool
  | .str s => s = "user"
  | _ => false

/-- `role: item.role === "assistant" ? "model" : item.role` (the whole
item is spread and only `role` replaced). -/
def mapRole (it : HistItem) : HistItem :=
  ⟨if roleIsAssistant it.role then .str "model" else it.role, it.parts⟩

/-- `{ role: "user", parts: [{ text: "Hello" }] }`. -/
def helloTurn : HistItem :=
  ⟨.str "user", .arr [.obj [("text", .str "Hello")]] []⟩

/-- Lines 202–213: map `assistant` → `model`, drop a single leading
`model` turn (`filter` with `index === 0 && role === "model"` removes
exactly the head, and runs only when the head's role is `"model"`), and
prepend the synthetic `Hello` user turn when the result is empty or does
not start with a `user` turn. -/
def normalizeChatHistory (items : List HistItem) : List HistItem :=
  let mapped := items.map mapRole
  let stripped :=
    match mapped with
    | [] => []
    | it :: rest => if roleIsModel it.role then rest else it :: rest
  match stripped with
  | [] => [helloTurn]
  | it :: rest => if roleIsUser it.role then it :: rest else helloTurn :: it :: rest

/-- Lines 188–216: the full `history` field handler — parse outcome in,
normalized history or the thrown validation error out.  `JSON.parse`
throwing and the explicit `throw new Error(...)` both land in the same
`catch`, which rejects the form-processing promise. -/
def processHistoryField (parsed : Option JsVal) : Except String (List HistItem) :=
  match parsed with
  | none => .error "JSON parse error"
  | some j =>
    match j with
    | .arr elems _ =>
      if elems.all isContentObject then
        .ok (normalizeChatHistory (elems.map toHistItem))
      else
        .error "History must be an array of Content objects"
    | _ => .error "History must be an array of Content objects"

/-- A value passing the strict `=== "user"` comparison is that literal. -/
theorem roleIsUser_eq {j : JsVal} (h : roleIsUser j = true) : j = .str "user" := by
  cases j <;> simp [roleIsUser] at h <;> simp [h]

/-- The role of a mapped item is never the `assistant` literal. -/
theorem mapRole_not_assistant (it : HistItem) :
    roleIsAssistant (mapRole it).role = false := by
  simp only [mapRole]
  by_cases hb : roleIsAssistant it.role
  · rw [if_pos hb]
    simp [roleIsAssistant]
  · rw [if_neg hb]
    exact Bool.eq_false_iff.mpr hb

/-- Pointwise form of the `all` check used below. -/
theorem all_not_assistant {l : List HistItem}
    (h : ∀ x ∈ l, roleIsAssistant x.role = false) :
    l.all (fun it => !roleIsAssistant it.role) = true := by
  simp only [List.all_eq_true, Bool.not_eq_true']
  exact h

/-- Extending a pointwise role fact across a `cons`. -/
theorem cons_role_fact {a : HistItem} {l : List HistItem}
    (ha : roleIsAssistant a.role = false)
    (hl : ∀ x ∈ l, roleIsAssistant x.role = false) :
    ∀ x ∈ a :: l, roleIsAssistant x.role = false := by
  intro x hx
  rcases List.mem_cons.mp hx with rfl | hx2
  · exact ha
  · exact hl x hx2

/-- The synthetic turn's role is the `user` literal. -/
theorem helloTurn_not_assistant : roleIsAssistant helloTurn.role = false := rfl

/-- C5: for every input history (array items each carrying `role` and
`parts`), the normalized history starts with a USER turn — hence has no
leading MODEL turn — and no `assistant` role survives the canonical
mapping to `model`. -/
theorem c5_normalize_starts_with_user :
    ∀ items : List HistItem,
      ((normalizeChatHistory items).head?.map HistItem.role = some (.str "user"))
      ∧ (normalizeChatHistory items).all (fun it => !roleIsAssistant it.role) = true := by
  intro items
  have hmapped : ∀ x ∈ items.map mapRole, roleIsAssistant x.role = false := by
    intro x hmem
    rcases List.mem_map.mp hmem with ⟨y, _, rfl⟩
    exact mapRole_not_assistant y
  constructor
  · simp only [normalizeChatHistory]
    cases hm : items.map mapRole with
    | nil => rfl
    | cons it rest =>
      dsimp only
      by_cases h1 : roleIsModel it.role
      · rw [if_pos h1]
        cases rest with
        | nil => rfl
        | cons it2 rest2 =>
          dsimp only
          by_cases h2 : roleIsUser it2.role
          · rw [if_pos h2]
            simp [roleIsUser_eq h2]
          · rw [if_neg h2]
            rfl
      · rw [if_neg h1]
        dsimp only
        by_cases h2 : roleIsUser it.role
        · rw [if_pos h2]
          simp [roleIsUser_eq h2]
        · rw [if_neg h2]
          rfl
  · simp only [normalizeChatHistory]
    cases hm : items.map mapRole with
    | nil => rfl
    | cons it rest =>
      rw [hm] at hmapped
      have hrest : ∀ x ∈ rest, roleIsAssistant x.role = false := fun x hx =>
        hmapped x (List.mem_cons_of_mem it hx)
      dsimp only
      by_cases h1 : roleIsModel it.role
      · rw [if_pos h1]
        cases rest with
        | nil => rfl
        | cons it2 rest2 =>
          dsimp only
          by_cases h2 : roleIsUser it2.role
          · rw [if_pos h2]
            exact all_not_assistant hrest
          · rw [if_neg h2]
            exact all_not_assistant (cons_role_fact helloTurn_not_assistant hrest)
      · rw [if_neg h1]
        dsimp only
        by_cases h2 : roleIsUser it.role
        · rw [if_pos h2]
          exact all_not_assistant hmapped
        · rw [if_neg h2]
          exact all_not_assistant (cons_role_fact helloTurn_not_assistant hmapped)

/-!
## Multipart form fields (`yinYang.ts` `processFormDataAndImages`)

A text field arrives as a raw string; the `history` handler additionally
runs it through `JSON.parse`.  The parse is the runtime boundary, so a
field value carries both the raw string and the parse outcome the runtime
would produce for it (`none` = `JSON.parse` threw).
-/

/-- One multipart text field value. -/
structure FieldVal where
  raw : String
  parsed : Option JsVal

/-- The mutable locals of `processFormDataAndImages` that text fields
touch (`imageParts` is fed by file events, handled separately). -/
structure YYFormState where
  userPrompt : String
  chatHistory : List HistItem
  personality : String

/-- Initial locals: `userPrompt = ""`, `chatHistory = []`,
`personality = "yin"`. -/
def initialYYState : YYFormState := ⟨"", [], "yin"⟩

/-- The `bb.on("field", ...)` handler, lines 178–218: `prompt` stores the
raw value, `personality` accepts only the lowercased literals `yin` and
`yang`, `history` parses, validates and normalizes (a failure there calls
`reject`, which settles the form promise with the error). -/
def handleYYField (st : YYFormState) (name : String) (v : FieldVal) :
    Except String YYFormState :=
  if name = "prompt" then
    .ok { st with userPrompt := v.raw }
  else if name = "personality" then
    let rp := v.raw.toLower
    if rp = "yin" ∨ rp = "yang" then .ok { st with personality := rp } else .ok st
  else if name = "history" then
    match processHistoryField v.parsed with
    | .ok h => .ok { st with chatHistory := h }
    | .error e => .error e
  else
    .ok st

/-- All text fields of one request, in arrival order; the first rejection
settles the promise, so processing short-circuits on error. -/
def processYYFields (fields : List (String × FieldVal)) : Except String YYFormState :=
  fields.foldlM (fun st f => handleYYField st f.1 f.2) initialYYState

/-- `yinYang` endpoint, lines 159–162: a rejected form promise lands in
the endpoint's `catch`, which answers HTTP 500 with a fixed body; on
success the request proceeds to generation instead (`none` here). -/
def yinYangFormFailureResponse (fields : List (String × FieldVal)) :
    Option (Nat × String) :=
  match processYYFields fields with
  | .error _ => some (500, "Error processing your request")
  | .ok _ => none

/-- The code's own validity test for the decoded history value: an array
whose members all pass the content-object shape check. -/
def isValidHistoryShape : JsVal → Bool
  | .arr elems _ => elems.all isContentObject
  | _ => false

/-- C6 counterexample: a history field whose decoded value is not an array
is rejected, but the endpoint surfaces the failure as the generic HTTP 500
server error, not as a 400 bad-request. -/
theorem c6_counterexample_history_error_is_500 :
    yinYangFormFailureResponse [("history", ⟨"\"hi\"", some (.str "hi")⟩)]
      = some (500, "Error processing your request")
    ∧ (500 : Nat) ≠ 400 := by
  constructor
  · rfl
  · decide

/-- C6 (amended): for every decoded history value that is not an array or
has an element failing the role/parts shape check, processing fails with
the `History must be an array of Content objects` error instead of a
silent repair, and the `yinYang` endpoint surfaces that failure as the
generic 500 response (`Error processing your request`), not as a 400
bad-request. -/
theorem c6_malformed_history_rejected (v : JsVal) (raw : String)
    (hv : isValidHistoryShape v = false) :
    processHistoryField (some v) = .error "History must be an array of Content objects"
    ∧ yinYangFormFailureResponse [("history", ⟨raw, some v⟩)]
        = some (500, "Error processing your request") := by
  have hp : processHistoryField (some v)
      = .error "History must be an array of Content objects" := by
    cases v with
    | arr elems props =>
      simp only [isValidHistoryShape] at hv
      simp [processHistoryField, hv]
    | undef => rfl
    | null => rfl
    | bool b => rfl
    | num n => rfl
    | str s => rfl
    | obj props => rfl
  refine ⟨hp, ?_⟩
  have h1 : handleYYField initialYYState "history" ⟨raw, some v⟩
      = .error "History must be an array of Content objects" := by
    simp [handleYYField, hp]
  simp [yinYangFormFailureResponse, processYYFields, List.foldlM, h1]

/-- Witness for the amended C6 at the concrete value `"hi"`. -/
theorem c6_malformed_history_rejected_witness :
    processHistoryField (some (.str "hi"))
      = .error "History must be an array of Content objects"
    ∧ yinYangFormFailureResponse [("history", ⟨"\"hi\"", some (.str "hi")⟩)]
        = some (500, "Error processing your request") :=
  c6_malformed_history_rejected (.str "hi") "\"hi\"" rfl

/-- A text field other than `history` never rejects and never touches the
`chatHistory` local. -/
theorem handleYYField_not_history (st : YYFormState) (name : String)
    (v : FieldVal) (h : name ≠ "history") :
    ∃ st', handleYYField st name v = .ok st' ∧ st'.chatHistory = st.chatHistory := by
  by_cases h1 : name = "prompt"
  · exact ⟨{ st with userPrompt := v.raw }, by simp [handleYYField, h1], rfl⟩
  · by_cases h2 : name = "personality"
    · by_cases h3 : v.raw.toLower = "yin" ∨ v.raw.toLower = "yang"
      · exact ⟨{ st with personality := v.raw.toLower },
          by simp [handleYYField, h1, h2, h3], rfl⟩
      · exact ⟨st, by simp [handleYYField, h1, h2, h3], rfl⟩
    · exact ⟨st, by simp [handleYYField, h1, h2, h], rfl⟩

/-- Folding fields that never mention `history` succeeds and leaves
`chatHistory` untouched. -/
theorem foldYY_no_history (fields : List (String × FieldVal)) :
    ∀ st0 : YYFormState, (∀ f ∈ fields, f.1 ≠ "history") →
      ∃ st, fields.foldlM (fun st f => handleYYField st f.1 f.2) st0 = .ok st
        ∧ st.chatHistory = st0.chatHistory := by
  induction fields with
  | nil => exact fun st0 _ => ⟨st0, rfl, rfl⟩
  | cons f rest ih =>
    intro st0 h
    obtain ⟨st1, hf, hch⟩ :=
      handleYYField_not_history st0 f.1 f.2 (h f (List.mem_cons_self f rest))
    obtain ⟨st2, hfold, hch2⟩ :=
      ih st1 (fun g hg => h g (List.mem_cons_of_mem f hg))
    refine ⟨st2, ?_, hch2.trans hch⟩
    simp only [List.foldlM, hf]
    simpa using hfold

/-- C10: history normalization runs only when the request carries a
`history` field.  Without one the chat history handed to the model is
empty — no synthetic `Hello` turn — while supplying the field with the
literal `[]` (decoded: empty array) produces exactly the synthetic
`Hello` user turn. -/
theorem c10_history_only_when_present :
    (∀ fields : List (String × FieldVal), (∀ f ∈ fields, f.1 ≠ "history") →
      ∃ st, processYYFields fields = .ok st ∧ st.chatHistory = [])
    ∧ processYYFields [("history", ⟨"[]", some (.arr [] [])⟩)]
        = .ok ⟨"", [helloTurn], "yin"⟩ := by
  constructor
  · intro fields h
    exact foldYY_no_history fields initialYYState h
  · rfl

/-- Witness for C10 on a request with only a `prompt` field. -/
theorem c10_history_only_when_present_witness :
    ∃ st, processYYFields [("prompt", ⟨"hi", none⟩)] = .ok st
      ∧ st.chatHistory = [] :=
  c10_history_only_when_present.1 [("prompt", ⟨"hi", none⟩)] (by simp)

/-!
## File uploads and MIME filtering

`yinYang.ts` lines 220–258 and the retry-based `caption.ts` revision
(lines 438–503 of the concatenated file) accept a file only when the field
name is `images` and the declared MIME type is on the allow-list; the
earlier `caption.ts` revision (lines 193–232) checks the field name only.
-/

/-- One uploaded file: multipart field name, declared MIME type, payload
(base64 text, as the handlers store it). -/
structure Upload where
  field : String
  mimeType : String
  data : String
  deriving DecidableEq

/-- `["image/jpeg", "image/png", "image/heif", "image/webp"]`. -/
def allowedMimeTypes : List String :=
  ["image/jpeg", "image/png", "image/heif", "image/webp"]

/-- The `inlineData` image part pushed by the file handlers. -/
structure InlineImagePart where
  mimeType : String
  data : String
  deriving DecidableEq

/-- One element of a generation request's `parts` list. -/
inductive ReqPart : Type where
  | text : String → ReqPart
  | image : InlineImagePart → ReqPart
  deriving DecidableEq

/-- `yinYang.ts` / retry-based `caption.ts` file handler: keep a file only
when the field is `images` and the MIME type is allow-listed; order is
preserved, and a dropped file only has its stream drained (`resume`). -/
def processUploads (uploads : List Upload) : List InlineImagePart :=
  (uploads.filter
      (fun u => u.field == "images" && allowedMimeTypes.contains u.mimeType)).map
    (fun u => ⟨u.mimeType, u.data⟩)

/-- Earlier `caption.ts` revision's file handler (lines 193–232): keeps
every file on the `images` field, with no MIME check. -/
def processUploadsRev1 (uploads : List Upload) : List InlineImagePart :=
  (uploads.filter (fun u => u.field == "images")).map (fun u => ⟨u.mimeType, u.data⟩)

/-- Earlier `caption.ts` revision, lines 111–116: the parts of the caption
generation call, `[{text: CAPTION_PROMPT + "\n\nContext from user: " +
userPrompt}, ...imageParts]` (the prompt text itself is configuration;
both strings are parameters here). -/
def captionRequestPartsRev1 (captionPrompt userPrompt : String)
    (imageParts : List InlineImagePart) : List ReqPart :=
  .text (captionPrompt ++ "\n\nContext from user: " ++ userPrompt)
    :: imageParts.map .image

/-- C7 counterexample: in the earlier `caption.ts` revision a `image/gif`
upload — a MIME type outside the allow-list — is kept by the file handler
and appears among the image parts of the caption generation request, so
the attachment is not dropped on every path. -/
theorem c7_counterexample_gif_forwarded :
    processUploadsRev1 [⟨"images", "image/gif", "R0lGOD"⟩]
        = [⟨"image/gif", "R0lGOD"⟩]
    ∧ ReqPart.image ⟨"image/gif", "R0lGOD"⟩
        ∈ captionRequestPartsRev1 "CAPTION_PROMPT" ""
            (processUploadsRev1 [⟨"images", "image/gif", "R0lGOD"⟩])
    ∧ allowedMimeTypes.contains "image/gif" = false := by
  refine ⟨rfl, ?_, rfl⟩
  simp [captionRequestPartsRev1, processUploadsRev1]

/-- C7 (amended): in `yinYang.ts` and the retry-based `caption.ts`
revision every surviving image part has an allow-listed MIME type — a
disallowed attachment is silently dropped and never composed into a
request — while the earlier `caption.ts` revision forwards attachments of
any MIME type on the `images` field. -/
theorem c7_mime_allowlist (uploads : List Upload) (p : InlineImagePart)
    (hp : p ∈ processUploads uploads) :
    allowedMimeTypes.contains p.mimeType = true := by
  simp only [processUploads, List.mem_map, List.mem_filter] at hp
  rcases hp with ⟨u, ⟨_, hu⟩, rfl⟩
  exact (Bool.and_eq_true _ _ ▸ hu).2

/-- Witness for the amended C7: a PNG upload survives and its MIME type is
on the allow-list. -/
theorem c7_mime_allowlist_witness :
    allowedMimeTypes.contains
      (InlineImagePart.mk "image/png" "AAAA").mimeType = true :=
  c7_mime_allowlist [⟨"images", "image/png", "AAAA"⟩] ⟨"image/png", "AAAA"⟩
    (by simp [processUploads, allowedMimeTypes])

/-- The route taken by the retry-based `caption` endpoint after form
processing: either the early 400 rejection or the launch of the
generation sub-tasks on the surviving image parts. -/
inductive CaptionRoute : Type where
  | badRequest : Nat → String → CaptionRoute
  | generate : List InlineImagePart → CaptionRoute
  deriving DecidableEq

/-- `caption.ts` (retry revision) lines 362–367: after the form settles,
an empty `imageParts` answers 400 `No images provided` and returns before
`generateCaption` is called; otherwise generation is launched on the
surviving parts. -/
def captionEndpointRoute (uploads : List Upload) : CaptionRoute :=
  let imageParts := processUploads uploads
  if imageParts.isEmpty then .badRequest 400 "No images provided"
  else .generate imageParts

/-- C9: when no uploaded file survives MIME filtering — in particular when
every `images` upload has a disallowed MIME type — the caption endpoint
answers 400 `No images provided` and no generation sub-task (hence no
model call) is launched. -/
theorem c9_no_images_bad_request (uploads : List Upload)
    (h : ∀ u ∈ uploads, u.field = "images" → u.mimeType ∉ allowedMimeTypes) :
    captionEndpointRoute uploads = .badRequest 400 "No images provided" := by
  have hempty : processUploads uploads = [] := by
    simp only [processUploads, List.map_eq_nil_iff, List.filter_eq_nil_iff]
    intro u hu
    by_cases hf : u.field = "images"
    · simp only [hf, beq_self_eq_true, Bool.true_and, Bool.not_eq_true]
      exact Bool.eq_false_iff.mpr fun hc => h u hu hf (by simpa using hc)
    · simp [hf]
  simp [captionEndpointRoute, hempty]

/-- Witness for C9: a single GIF upload is rejected with 400. -/
theorem c9_no_images_bad_request_witness :
    captionEndpointRoute [⟨"images", "image/gif", "AAAA"⟩]
      = .badRequest 400 "No images provided" :=
  c9_no_images_bad_request [⟨"images", "image/gif", "AAAA"⟩] (by decide)

/-!
## Message composition (`yinYang.ts` `chatResponse`, lines 287–296)
-/

/-- The substitute instruction used when the prompt is blank but images
are present. -/
def DESCRIBE_IMAGE_PROMPT : String :=
  "Describe what you see in this image in detail and provide thoughtful commentary."

/-- Truthiness of `userPrompt.trim()`: the trimmed string is non-empty
exactly when some character is not whitespace (the runtime trims a
slightly larger Unicode whitespace set; no claim depends on the exotic
code points). -/
def trimNonempty (s : String) : Bool :=
  !(s.toList.all Char.isWhitespace)

/-- `messageParts`: push `{text: userPrompt}` when the trimmed prompt is
non-empty, else push the describe instruction when images exist, then
append all image parts in order. -/
def composeMessageParts (userPrompt : String) (imageParts : List InlineImagePart) :
    List ReqPart :=
  (if trimNonempty userPrompt then [ReqPart.text userPrompt]
   else if imageParts ≠ [] then [ReqPart.text DESCRIBE_IMAGE_PROMPT]
   else [])
  ++ imageParts.map ReqPart.image

/-- C8: a blank (empty or whitespace-only) prompt with attachments present
is replaced by the generic describe-what-you-see text part, and a
non-blank prompt with zero attachments composes to exactly one text part
carrying the prompt. -/
theorem c8_compose_message_parts (p : String) (imgs : List InlineImagePart) :
    (trimNonempty p = false → imgs ≠ [] →
      composeMessageParts p imgs
        = ReqPart.text DESCRIBE_IMAGE_PROMPT :: imgs.map ReqPart.image)
    ∧ (trimNonempty p = true → composeMessageParts p [] = [ReqPart.text p]) := by
  constructor
  · intro h1 h2
    simp [composeMessageParts, h1, h2]
  · intro h1
    simp [composeMessageParts, h1]

/-- Witness for C8 on a whitespace-only prompt with one image and on the
prompt `hello` with no image. -/
theorem c8_compose_message_parts_witness :
    composeMessageParts " " [⟨"image/png", "AAAA"⟩]
      = ReqPart.text DESCRIBE_IMAGE_PROMPT
          :: [InlineImagePart.mk "image/png" "AAAA"].map ReqPart.image
    ∧ composeMessageParts "hello" [] = [ReqPart.text "hello"] :=
  ⟨(c8_compose_message_parts " " [⟨"image/png", "AAAA"⟩]).1 (by decide) (by simp),
   (c8_compose_message_parts "hello" []).2 (by decide)⟩

/-!
## Resilient invocation

Three revisions live in the repository:
* `utils/modelRetry.ts` `withRetry`, a consolidated helper driven by a
  `RetryConfig`, used by the `withRetry`-based `yinYang` revision with
  `RETRY_CONFIG = \x7b primary: \x7bmaxRetries: 3, ...\x7d, fallback:
  \x7bmaxRetries: 5\x7d \x7d`;
* the per-call-site loops of `yinYang.ts` `chatResponse` and of the
  retry-based `caption.ts` `generateContentWithRetry`, both with
  `MAX_PRIMARY_RETRIES = 3` and `MAX_FALLBACK_RETRIES = 10`.

A model stub is a function from the zero-based attempt index to the
attempt's outcome; backoff delays only affect timing and are not
modelled.
-/

/-- A thrown JS error as the retry code inspects it: either it carries a
`status` field, or it is some other error (whose `status` read yields
`undefined`, never equal to 503). -/
inductive JsError : Type where
  | status : Nat → JsError
  | generic : String → JsError
  deriving DecidableEq

/-- `error.status === 503`. -/
def is503 : JsError → Bool
  | .status c => c == 503
  | .generic _ => false

/-- `utils/modelRetry.ts` `RetryConfig` (delay fields are timing-only). -/
structure RetryConfig where
  maxRetries : Nat
  delayMs : Nat
  exponentialBackoff : Bool := false

/-- `RETRY_CONFIG.primary` of the `withRetry`-based `yinYang` revision. -/
def RETRY_CONFIG_primary : RetryConfig := ⟨3, 1000, true⟩

/-- `RETRY_CONFIG.fallback` of the same revision. -/
def RETRY_CONFIG_fallback : RetryConfig := ⟨5, 1000, false⟩

/-- `withRetry`'s loop with its running `attempts` counter: one operation
call per iteration; on an error the counter is incremented and the error
is rethrown unless it is a 503 with attempts remaining.  Returns the
outcome together with the number of operation calls made. -/
def withRetryAux (op : Nat → Except JsError α) (maxRetries attempts : Nat) :
    Except JsError α × Nat :=
  if attempts < maxRetries then
    match op attempts with
    | .ok v => (.ok v, attempts + 1)
    | .error e =>
      if is503 e && attempts + 1 < maxRetries then
        withRetryAux op maxRetries (attempts + 1)
      else
        (.error e, attempts + 1)
  else
    (.error (.generic "All retries failed"), attempts)
termination_by maxRetries - attempts
decreasing_by omega

/-- `withRetry(operation, config, name)` (the operation name only feeds
logging). -/
def withRetry (op : Nat → Except JsError α) (config : RetryConfig) :
    Except JsError α × Nat :=
  withRetryAux op config.maxRetries 0

/-- The model stub that always reports 503 "temporarily unavailable". -/
def always503 : Nat → Except JsError String := fun _ => .error (.status 503)

/-- Against the always-503 stub, `withRetry`'s loop runs to the attempt
ceiling and rethrows the 503. -/
theorem withRetryAux_always503 :
    ∀ d m a, m - a = d → a < m →
      withRetryAux always503 m a = (.error (.status 503), m) := by
  intro d
  induction d with
  | zero =>
    intro m a hd h
    omega
  | succ d ih =>
    intro m a hd h
    unfold withRetryAux
    rw [if_pos h]
    show (if is503 (.status 503) && a + 1 < m then
      withRetryAux always503 m (a + 1) else (.error (.status 503), a + 1)) = _
    by_cases h2 : a + 1 < m
    · rw [if_pos (by simp [is503, h2])]
      exact ih m (a + 1) (by omega) h2
    · rw [if_neg (by simp [is503]; omega)]
      have : a + 1 = m := by omega
      rw [this]

/-- `chatResponse` of the `withRetry`-based `yinYang` revision (lines
390–410 of that file): primary tier under `RETRY_CONFIG.primary`; any
primary failure is caught and the fallback tier runs under
`RETRY_CONFIG.fallback`; any fallback failure is caught and the response
text becomes the serialized fallback object.  Returns the text plus the
primary and fallback attempt counts. -/
def chatResponseWithRetry (pOp fOp : Nat → Except JsError String) :
    String × Nat × Nat :=
  match withRetry pOp RETRY_CONFIG_primary with
  | (.ok t, n) => (t, n, 0)
  | (.error _, n) =>
    match withRetry fOp RETRY_CONFIG_fallback with
    | (.ok t, m) => (t, n, m)
    | (.error _, m) =>
      ("\x7b\"bubbles\":[\"... ummmmm\"]\x7d", n, m)

/-- C2: with a model stub that always reports 503, `withRetry` makes
exactly `maxRetries` attempts — no more, no fewer — for every ceiling;
under the revision's configs the chat sub-task makes exactly 3 primary
attempts, then exactly 5 fallback attempts, then resolves to the
serialized fallback value. -/
theorem c2_retry_exhaustion :
    (∀ m : Nat, (withRetryAux always503 m 0).2 = m)
    ∧ chatResponseWithRetry always503 always503
        = ("\x7b\"bubbles\":[\"... ummmmm\"]\x7d", 3, 5) := by
  have hrun : ∀ m : Nat, 0 < m →
      withRetryAux always503 m 0 = (.error (.status 503), m) :=
    fun m hm => withRetryAux_always503 (m - 0) m 0 rfl hm
  constructor
  · intro m
    match m with
    | 0 =>
      unfold withRetryAux
      rfl
    | Nat.succ k => rw [hrun (k + 1) (Nat.succ_pos k)]
  · have h3 := hrun 3 (by omega)
    have h5 := hrun 5 (by omega)
    simp [chatResponseWithRetry, withRetry, RETRY_CONFIG_primary,
      RETRY_CONFIG_fallback, h3, h5]

/-- Outcome of one tier's `while` loop in `yinYang.ts` `chatResponse` and
`caption.ts` `generateContentWithRetry`: a successful return, a rethrown
non-503 error, or falling out of the loop with the 503 budget spent. -/
inductive TierResult (α : Type) : Type where
  | done : α → TierResult α
  | thrown : JsError → TierResult α
  | exhausted : TierResult α

/-- One tier's loop (`while (retries < MAX) try return invoke() catch e:
if 503 retry else throw e`), returning the outcome and the number of
invocations made. -/
def tierLoopAux (op : Nat → Except JsError α) (maxR r : Nat) :
    TierResult α × Nat :=
  if r < maxR then
    match op r with
    | .ok v => (.done v, r + 1)
    | .error e => if is503 e then tierLoopAux op maxR (r + 1) else (.thrown e, r + 1)
  else
    (.exhausted, r)
termination_by maxR - r
decreasing_by omega

/-- `yinYang.ts` line 24: `MAX_PRIMARY_RETRIES = 3` (also `caption.ts`
line 285 of the concatenated file). -/
def MAX_PRIMARY_RETRIES : Nat := 3

/-- `yinYang.ts` line 25: `MAX_FALLBACK_RETRIES = 10` (also `caption.ts`
line 286). -/
def MAX_FALLBACK_RETRIES : Nat := 10

/-- The terminal fallback of `yinYang.ts` `chatResponse`, lines 348–351:
the serialized text and the already-shaped `responseJson`. -/
def chatFallbackResult : String × JsVal :=
  ("\x7b\"bubbles\":[\"... ummmmm\"]\x7d",
   .obj [("bubbles", .arr [.str FAILURE_RESPONSE] [])])

/-- `yinYang.ts` `chatResponse`, lines 303–351: primary loop (3-attempt
budget), then fallback loop (10-attempt budget), then the terminal
fallback result; a non-503 error in either loop is rethrown out of
`chatResponse` (`throw error`).  The stub yields `invokeLLM`'s
`(responseText, responseJson)` pair; attempt counts per tier are returned
alongside. -/
def chatResponse (pOp fOp : Nat → Except JsError (String × JsVal)) :
    Except JsError (String × JsVal) × Nat × Nat :=
  match tierLoopAux pOp MAX_PRIMARY_RETRIES 0 with
  | (.done v, n) => (.ok v, n, 0)
  | (.thrown e, n) => (.error e, n, 0)
  | (.exhausted, n) =>
    match tierLoopAux fOp MAX_FALLBACK_RETRIES 0 with
    | (.done v, m) => (.ok v, n, m)
    | (.thrown e, m) => (.error e, n, m)
    | (.exhausted, m) => (.ok chatFallbackResult, n, m)

/-- A model stub that always fails with HTTP 400 (non-retryable). -/
def always400 : Nat → Except JsError (String × JsVal) :=
  fun _ => .error (.status 400)

/-- C3 counterexample: a non-503 failure on the very first primary attempt
is rethrown out of `chatResponse` — zero fallback attempts are made and
the exception does pass the caller — instead of escalating to the
fallback tier or resolving to a fallback value. -/
theorem c3_counterexample_non503_rethrown :
    chatResponse always400 always400 = (.error (.status 400), 1, 0) := by
  have h : tierLoopAux always400 MAX_PRIMARY_RETRIES 0
      = (.thrown (.status 400), 1) := by
    unfold tierLoopAux
    rfl
  simp [chatResponse, h]

/-- Against the always-503 stub a tier loop spends its whole budget and
falls through. -/
theorem tierLoopAux_always503 (op : Nat → Except JsError α)
    (hop : ∀ k, op k = .error (.status 503)) :
    ∀ d maxR r, maxR - r = d → r ≤ maxR →
      tierLoopAux op maxR r = (.exhausted, maxR) := by
  intro d
  induction d with
  | zero =>
    intro maxR r hd h
    have : r = maxR := by omega
    subst this
    unfold tierLoopAux
    simp
  | succ d ih =>
    intro maxR r hd h
    have hlt : r < maxR := by omega
    unfold tierLoopAux
    rw [if_pos hlt, hop r]
    show (if is503 (.status 503) then tierLoopAux op maxR (r + 1)
      else (.thrown (.status 503), r + 1)) = _
    rw [if_pos (by simp [is503])]
    exact ih maxR (r + 1) (by omega) (by omega)

/-- A non-503 error on the first attempt is thrown after exactly one
invocation. -/
theorem tierLoopAux_non503_first (op : Nat → Except JsError α) (maxR : Nat)
    (e : JsError) (hm : 0 < maxR) (hop : op 0 = .error e) (he : is503 e = false) :
    tierLoopAux op maxR 0 = (.thrown e, 1) := by
  unfold tierLoopAux
  rw [if_pos hm, hop]
  show (if is503 e then tierLoopAux op maxR 1 else (.thrown e, 1)) = _
  rw [if_neg (by simp [he])]

/-- C3 (amended): a failure is retried only on the 503 signal — a non-503
error on the first attempt of a tier is thrown after exactly one
invocation; a non-503 primary failure is rethrown past `chatResponse`
with zero fallback attempts rather than escalating; a non-503 fallback
failure is likewise rethrown; the fallback value is produced exactly when
both tiers exhaust their budgets on 503s. -/
theorem c3_non503_escapes_caller :
    (∀ (op : Nat → Except JsError (String × JsVal)) (maxR : Nat) (e : JsError),
      0 < maxR → op 0 = .error e → is503 e = false →
        tierLoopAux op maxR 0 = (.thrown e, 1))
    ∧ (∀ (pOp fOp : Nat → Except JsError (String × JsVal)) (e : JsError) (n : Nat),
        tierLoopAux pOp MAX_PRIMARY_RETRIES 0 = (.thrown e, n) →
          chatResponse pOp fOp = (.error e, n, 0))
    ∧ (∀ (pOp fOp : Nat → Except JsError (String × JsVal)) (e : JsError) (n m : Nat),
        tierLoopAux pOp MAX_PRIMARY_RETRIES 0 = (.exhausted, n) →
        tierLoopAux fOp MAX_FALLBACK_RETRIES 0 = (.thrown e, m) →
          chatResponse pOp fOp = (.error e, n, m))
    ∧ (∀ (pOp fOp : Nat → Except JsError (String × JsVal)) (n m : Nat),
        tierLoopAux pOp MAX_PRIMARY_RETRIES 0 = (.exhausted, n) →
        tierLoopAux fOp MAX_FALLBACK_RETRIES 0 = (.exhausted, m) →
          chatResponse pOp fOp = (.ok chatFallbackResult, n, m)) := by
  refine ⟨tierLoopAux_non503_first, ?_, ?_, ?_⟩
  · intro pOp fOp e n hp
    simp [chatResponse, hp]
  · intro pOp fOp e n m hp hf
    simp [chatResponse, hp, hf]
  · intro pOp fOp n m hp hf
    simp [chatResponse, hp, hf]

/-- Witness for the amended C3: always-400 primary throws after one
attempt; an always-503 run of both tiers yields the fallback result with
the full 3 and 10 attempt counts. -/
theorem c3_non503_escapes_caller_witness :
    chatResponse always400 always400 = (.error (.status 400), 1, 0)
    ∧ chatResponse (fun _ => .error (.status 503))
        (fun _ => .error (.status 503))
        = (.ok chatFallbackResult, 3, 10) := by
  have h400 : tierLoopAux always400 MAX_PRIMARY_RETRIES 0
      = (.thrown (.status 400), 1) :=
    c3_non503_escapes_caller.1 always400 MAX_PRIMARY_RETRIES (.status 400)
      (by decide) rfl rfl
  have h503p : tierLoopAux (fun _ => (.error (.status 503) :
      Except JsError (String × JsVal))) MAX_PRIMARY_RETRIES 0
      = (.exhausted, MAX_PRIMARY_RETRIES) :=
    tierLoopAux_always503 _ (fun _ => rfl) MAX_PRIMARY_RETRIES
      MAX_PRIMARY_RETRIES 0 rfl (by decide)
  have h503f : tierLoopAux (fun _ => (.error (.status 503) :
      Except JsError (String × JsVal))) MAX_FALLBACK_RETRIES 0
      = (.exhausted, MAX_FALLBACK_RETRIES) :=
    tierLoopAux_always503 _ (fun _ => rfl) MAX_FALLBACK_RETRIES
      MAX_FALLBACK_RETRIES 0 rfl (by decide)
  exact ⟨c3_non503_escapes_caller.2.1 always400 always400 (.status 400) 1 h400,
    c3_non503_escapes_caller.2.2.2 _ _ MAX_PRIMARY_RETRIES MAX_FALLBACK_RETRIES
      h503p h503f⟩

/-!
## Caption orchestration (`caption.ts`, retry revision, lines 533–663)
-/

/-- The three sub-task kinds keyed into `FAILURE_RESPONSES`. -/
inductive ResponseType : Type where
  | caption : ResponseType
  | description : ResponseType
  | transitionalComment : ResponseType

/-- `FAILURE_RESPONSES` (lines 287–291): the per-sub-task fallback
string. -/
def FAILURE_RESPONSES : ResponseType → String
  | .caption => "caption error"
  | .description => ""
  | .transitionalComment => ""

/-- `generateContentWithRetry` (lines 610–663): primary loop with the
3-attempt budget, fallback loop with the 10-attempt budget, then the
sub-task's failure response; non-503 errors are rethrown (`throw error`),
which rejects the sub-task's promise. -/
def generateContentWithRetry (pOp fOp : Nat → Except JsError String)
    (responseType : ResponseType) : Except JsError String :=
  match tierLoopAux pOp MAX_PRIMARY_RETRIES 0 with
  | (.done v, _) => .ok v
  | (.thrown e, _) => .error e
  | (.exhausted, _) =>
    match tierLoopAux fOp MAX_FALLBACK_RETRIES 0 with
    | (.done v, _) => .ok v
    | (.thrown e, _) => .error e
    | (.exhausted, _) => .ok (FAILURE_RESPONSES responseType)

/-- JS truthiness of the optional `prevPhotoDescription` string (an empty
string is falsy, so it suppresses the transition sub-task too). -/
def strOptTruthy : Option String → Bool
  | some s => s != ""
  | none => false

/-- `generateCaption` (lines 533–607): the three sub-tasks run under
`Promise.all`; the transition slot is `Promise.resolve("")` unless a
truthy previous description exists, and the returned `transitionalComment`
is `t || undefined`.  `Promise.all` rejects when any sub-task rejects
(which one wins is a timing race; every statement below drives at most
one sub-task to rejection, making the outcome unambiguous), and resolves
with all three values once all fulfill. -/
def generateCaptionResult (capP capF descP descF transP transF : Nat → Except JsError String)
    (prevPhotoDescription : Option String) :
    Except JsError (String × String × Option String) :=
  let t1 := generateContentWithRetry capP capF .caption
  let t2 := generateContentWithRetry descP descF .description
  let t3 := if strOptTruthy prevPhotoDescription then
      generateContentWithRetry transP transF .transitionalComment
    else
      .ok ""
  match t1, t2, t3 with
  | .ok c, .ok d, .ok t => .ok (c, d, if t = "" then none else some t)
  | .error e, _, _ => .error e
  | .ok _, .error e, _ => .error e
  | .ok _, .ok _, .error e => .error e

/-- A sub-task stub that always fails with HTTP 400. -/
def always400s : Nat → Except JsError String := fun _ => .error (.status 400)

/-- A sub-task stub that succeeds immediately with a fixed string. -/
def okOp (s : String) : Nat → Except JsError String := fun _ => .ok s

/-- A stub succeeding on the first attempt completes its tier loop after
exactly one invocation. -/
theorem tierLoopAux_ok_first (s : String) (maxR : Nat) (hm : 0 < maxR) :
    tierLoopAux (okOp s) maxR 0 = (.done s, 1) := by
  unfold tierLoopAux
  rw [if_pos hm]
  rfl

/-- C4 counterexample: when the caption sub-task fails with a non-503
error while description and transition both succeed, the rejection
propagates out of `generateCaption` — the aggregate neither contains the
other sub-tasks' values nor the caption fallback string, and the
exception escapes the orchestrator (the endpoint turns it into a 500). -/
theorem c4_counterexample_non503_rejects_all :
    generateCaptionResult always400s always400s (okOp "a description")
        (okOp "a description") (okOp "a transition") (okOp "a transition")
        (some "previous photo")
      = .error (.status 400) := by
  have hcap : generateContentWithRetry always400s always400s .caption
      = .error (.status 400) := by
    have h : tierLoopAux always400s MAX_PRIMARY_RETRIES 0
        = (.thrown (.status 400), 1) :=
      tierLoopAux_non503_first always400s MAX_PRIMARY_RETRIES (.status 400)
        (by decide) rfl rfl
    simp [generateContentWithRetry, h]
  have hdesc : generateContentWithRetry (okOp "a description")
      (okOp "a description") .description = .ok "a description" := by
    simp [generateContentWithRetry,
      tierLoopAux_ok_first "a description" MAX_PRIMARY_RETRIES (by decide)]
  have htrans : generateContentWithRetry (okOp "a transition")
      (okOp "a transition") .transitionalComment = .ok "a transition" := by
    simp [generateContentWithRetry,
      tierLoopAux_ok_first "a transition" MAX_PRIMARY_RETRIES (by decide)]
  simp [generateCaptionResult, hcap, hdesc, htrans, strOptTruthy]

/-- All-503 exhaustion of one sub-task resolves it to its failure
response. -/
theorem generateContentWithRetry_503_fallback (rt : ResponseType) :
    generateContentWithRetry always503 always503 rt
      = .ok (FAILURE_RESPONSES rt) := by
  have hp : tierLoopAux always503 MAX_PRIMARY_RETRIES 0
      = (.exhausted, MAX_PRIMARY_RETRIES) :=
    tierLoopAux_always503 always503 (fun _ => rfl) MAX_PRIMARY_RETRIES
      MAX_PRIMARY_RETRIES 0 rfl (by decide)
  have hf : tierLoopAux always503 MAX_FALLBACK_RETRIES 0
      = (.exhausted, MAX_FALLBACK_RETRIES) :=
    tierLoopAux_always503 always503 (fun _ => rfl) MAX_FALLBACK_RETRIES
      MAX_FALLBACK_RETRIES 0 rfl (by decide)
  simp [generateContentWithRetry, hp, hf]

/-- C4 (amended): when the failing sub-task fails with the 503 signal on
every attempt of both tiers, the orchestration keeps its partial-failure
promise — the aggregate still carries the other sub-tasks' values, the
failed sub-task resolves to its sub-task-specific fallback string
(`caption error`, or the empty string, which the result maps to an absent
transitional comment), and no exception escapes; a non-503 sub-task
failure instead rejects the whole orchestration. -/
theorem c4_one_503_subtask_resolves_to_fallback :
    (∀ d t : String,
      generateCaptionResult always503 always503 (okOp d) (okOp d)
          (okOp t) (okOp t) (some "previous photo")
        = .ok ("caption error", d, if t = "" then none else some t))
    ∧ (∀ c t : String,
      generateCaptionResult (okOp c) (okOp c) always503 always503
          (okOp t) (okOp t) (some "previous photo")
        = .ok (c, "", if t = "" then none else some t))
    ∧ (∀ c d : String,
      generateCaptionResult (okOp c) (okOp c) (okOp d) (okOp d)
          always503 always503 (some "previous photo")
        = .ok (c, d, none)) := by
  have hok : ∀ s : String, ∀ rt : ResponseType,
      generateContentWithRetry (okOp s) (okOp s) rt = .ok s := by
    intro s rt
    simp [generateContentWithRetry,
      tierLoopAux_ok_first s MAX_PRIMARY_RETRIES (by decide)]
  refine ⟨fun d t => ?_, fun c t => ?_, fun c d => ?_⟩
  · simp [generateCaptionResult, generateContentWithRetry_503_fallback,
      hok, strOptTruthy, FAILURE_RESPONSES]
  · simp [generateCaptionResult, generateContentWithRetry_503_fallback,
      hok, strOptTruthy, FAILURE_RESPONSES]
  · simp [generateCaptionResult, generateContentWithRetry_503_fallback,
      hok, strOptTruthy, FAILURE_RESPONSES]
